import Mathlib

/-!
Shallow embedding of the grasping_pipeline repository (grasp-candidate
selection/execution loop, collision-environment synchronization, and the
collision-object synthesis paths), with theorems settling the spec claims.

Numeric values are modelled as rationals.  External collaborators (MoveIt
planner, tf transforms, the planning scene, the robot hardware) are
parameters of the model: the embedding fixes exactly the control flow and
arithmetic of the repository code and leaves the collaborators' replies
abstract, as the code itself does.
-/

/-- 3-vector with rational coordinates (geometry_msgs Vector3 / Point). -/
structure Vec3 where
  x : ℚ
  y : ℚ
  z : ℚ
  deriving Repr, DecidableEq

/-- Quaternion in ROS component order (x, y, z, w). -/
structure Quat where
  x : ℚ
  y : ℚ
  z : ℚ
  w : ℚ
  deriving Repr, DecidableEq

/-- geometry_msgs Pose: position plus orientation. -/
structure Pose where
  position : Vec3
  orientation : Quat
  deriving Repr, DecidableEq

/-- geometry_msgs PoseStamped restricted to the fields the code reads:
the frame tag of the header and the pose.  (The stamp is written but never
read by the modelled code paths.) -/
structure PoseStamped where
  frame_id : String
  pose : Pose
  deriving Repr, DecidableEq

/-- Squared norm of a quaternion, the `nq = numpy.dot(q, q)` of
`tf.transformations.quaternion_matrix`. -/
def quatNormSq (q : Quat) : ℚ := q.x * q.x + q.y * q.y + q.z * q.z + q.w * q.w

/-- `qv_mult(q, v)` from execute_grasp_action_server.py: rotates `v` by the
rotation matrix `tf.transformations.quaternion_matrix(q)[:3, :3]`.  That
routine rescales `q` by `sqrt(2 / nq)` before taking outer products, so every
matrix entry is rational in the components, with `s = 2 / nq`; for `nq`
below machine epsilon it returns the identity matrix (modelled as `nq = 0`). -/
def qv_mult (q : Quat) (v : Vec3) : Vec3 :=
  let n := quatNormSq q
  if n = 0 then v
  else
    let s := 2 / n
    { x := (1 - s * (q.y * q.y + q.z * q.z)) * v.x
         + (s * (q.x * q.y - q.z * q.w)) * v.y
         + (s * (q.x * q.z + q.y * q.w)) * v.z
      y := (s * (q.x * q.y + q.z * q.w)) * v.x
         + (1 - s * (q.x * q.x + q.z * q.z)) * v.y
         + (s * (q.y * q.z - q.x * q.w)) * v.z
      z := (s * (q.x * q.z - q.y * q.w)) * v.x
         + (s * (q.y * q.z + q.x * q.w)) * v.y
         + (1 - s * (q.x * q.x + q.y * q.y)) * v.z }

/-- The in-place safety-distance offset applied to a grasp pose inside the
candidate loop (execute_grasp_action_server.py lines 102-115): the approach
vector is `qv_mult(orientation, (0,0,-1))` and `safety_distance` times it is
added to the position.  Frame tag and orientation are not touched. -/
def offsetPose (sd : ℚ) (p : PoseStamped) : PoseStamped :=
  let a := qv_mult p.pose.orientation ⟨0, 0, -1⟩
  { p with pose :=
      { p.pose with position :=
          ⟨p.pose.position.x + sd * a.x,
           p.pose.position.y + sd * a.y,
           p.pose.position.z + sd * a.z⟩ } }

/-- Motion commands the grasp server can issue to the robot after a plan is
found (execute_grasp_action_server.py lines 137-157 and 165). -/
inductive MotionCmd where
  | moveGroupGo
  | moveEndEffectorByLine (axis : Vec3) (dist : ℚ)
  | applyForce (f : ℚ)
  | moveEndEffectorPose
  | omniBaseGoRel (x y yaw : ℚ)
  | moveToNeutral
  | gripperCommand (v : ℚ)
  deriving Repr, DecidableEq

/-- How the candidate loop terminated: an empty frame tag was hit, a plan
with at least one waypoint was found for the candidate at the given input
index, or the list was exhausted with `plan_found` still false. -/
inductive LoopOutcome where
  | invalid
  | found (idx : ℕ)
  | exhausted
  deriving Repr, DecidableEq

/-- Result of the candidate loop: its outcome, the final state of the input
candidate list (the Python loop mutates list elements in place), and the
indices of the candidates a motion plan was requested for. -/
structure LoopResult where
  outcome : LoopOutcome
  poses : List PoseStamped
  planned : List ℕ
  deriving Repr, DecidableEq

/-- The candidate loop of `ExecuteGraspServer.execute`
(execute_grasp_action_server.py lines 96-126), parametrized by the external
collaborators: `tfm` is `tf.transformPose('/odom', ·)` at the latest common
time, and `plan` gives the number of joint-trajectory points MoveIt returns
for a target pose.  For each candidate in order: abort on an empty frame
tag; otherwise add the safety offset in place, transform, plan, and break
on the first plan with at least one waypoint. -/
def graspLoop (tfm : PoseStamped → PoseStamped) (plan : PoseStamped → ℕ)
    (sd : ℚ) : ℕ → List PoseStamped → LoopResult
  | _, [] => ⟨.exhausted, [], []⟩
  | i, p :: rest =>
    if p.frame_id = "" then ⟨.invalid, p :: rest, []⟩
    else
      let pOff := offsetPose sd p
      if 0 < plan (tfm pOff) then ⟨.found i, pOff :: rest, [i]⟩
      else
        let r := graspLoop tfm plan sd (i + 1) rest
        ⟨r.outcome, pOff :: r.poses, i :: r.planned⟩

/-- A candidate is feasible when MoveIt's plan for its offset, transformed
pose contains at least one trajectory waypoint. -/
def feasible (tfm : PoseStamped → PoseStamped) (plan : PoseStamped → ℕ)
    (sd : ℚ) (p : PoseStamped) : Prop :=
  0 < plan (tfm (offsetPose sd p))

instance (tfm plan sd p) : Decidable (feasible tfm plan sd p) := by
  unfold feasible; infer_instance

/-- Outcome of one call to `ExecuteGraspServer.execute`: the reported
success flag, whether the action was aborted, which candidate index was
selected, the motion commands issued, the final state of the input
candidate list, and the candidate indices planned for. -/
structure GraspResult where
  success : Bool
  aborted : Bool
  selected : Option ℕ
  motions : List MotionCmd
  finalPoses : List PoseStamped
  planned : List ℕ
  deriving Repr, DecidableEq

/-- `ExecuteGraspServer.execute` (execute_grasp_action_server.py lines
87-166) after collision-environment setup, parametrized by the external
collaborators and the gripper aperture `ap` measured after the strong
re-close.  If the loop aborts (invalid frame, or no feasible plan) no
motion command is issued, the result's success flag stays at its message
default `false`, and the action is aborted.  Otherwise the fixed post-grasp
motion sequence runs, the gripper re-closes at force 0.50, and success is
reported iff the measured aperture exceeds -0.004; in the failure case the
gripper is reopened (`command(1.0)`) and the action is aborted. -/
def executeGrasp (tfm : PoseStamped → PoseStamped) (plan : PoseStamped → ℕ)
    (sd ap : ℚ) (poses : List PoseStamped) : GraspResult :=
  let r := graspLoop tfm plan sd 0 poses
  match r.outcome with
  | .invalid => ⟨false, true, none, [], r.poses, r.planned⟩
  | .exhausted => ⟨false, true, none, [], r.poses, r.planned⟩
  | .found i =>
    let ms : List MotionCmd :=
      [.moveGroupGo,
       .moveEndEffectorByLine ⟨0, 0, 1⟩ sd,
       .applyForce (3/10),
       .moveEndEffectorPose,
       .moveEndEffectorByLine ⟨0, 0, 1⟩ (-sd),
       .omniBaseGoRel (-(1/5)) 0 0,
       .moveToNeutral,
       .applyForce (1/2)]
    if -(1/250) < ap then
      ⟨true, false, some i, ms, r.poses, r.planned⟩
    else
      ⟨false, true, some i, ms ++ [.gripperCommand 1], r.poses, r.planned⟩

/-- Terminal status the SimpleActionServer reports for one action goal. -/
inductive ActionStatus where
  | succeeded
  | aborted
  deriving Repr, DecidableEq

/-- The four mutation kinds of the CollisionObject message
(METHOD_ADD_BOX, METHOD_REMOVE_BOX, METHOD_ATTACH_BOX, METHOD_DETACH_BOX). -/
inductive CollisionMethod where
  | add
  | remove
  | attach
  | detach
  deriving Repr, DecidableEq

/-- CollisionObject message: name, frame, mutation kind, pose and size. -/
structure CollisionObject where
  name : String
  frame : String
  method : CollisionMethod
  pose : Pose
  size : Vec3
  deriving Repr, DecidableEq

/-- Result of one `CreateCollisionEnvironmentServer.execute` call: the
aggregate isDone flag, the action status the server set, and how many
primitives of the goal were dispatched to a mutation handler. -/
structure BatchResult where
  isDone : Bool
  status : ActionStatus
  dispatched : ℕ
  deriving Repr, DecidableEq

/-- The batch loop of `CreateCollisionEnvironmentServer.execute`
(collision_environment.py lines 66-84).  Each list element is dispatched on
its method field to add_box / remove_box / attach_box / detach_box; each of
those performs a planning-scene call and returns the boolean of its
`wait_for_state_update` post-condition check.  That boolean depends on the
external planning scene, so it is abstracted as `handler i` for the i-th
dispatched primitive.  A `False` return clears `isDone`; the loop never
breaks.  (The `eef_link` frame rewriting and the size-tuple construction
only shape the handler's arguments and do not affect control flow.) -/
def batchLoop (handler : ℕ → Bool) : List CollisionObject → ℕ → Bool → Bool × ℕ
  | [], i, isDone => (isDone, i)
  | obj :: rest, i, isDone =>
    let isDoneNext : Bool :=
      match obj.method with
      | .add => if handler i = false then false else isDone
      | .remove => if handler i = false then false else isDone
      | .attach => if handler i = false then false else isDone
      | .detach => if handler i = false then false else isDone
    batchLoop handler rest (i + 1) isDoneNext

/-- `CreateCollisionEnvironmentServer.execute` (collision_environment.py
lines 61-88): run the batch loop with isDone initially true, then put the
aggregate flag in the result and call `set_succeeded` — the only terminal
status this handler ever sets. -/
def executeBatch (handler : ℕ → Bool) (objs : List CollisionObject) : BatchResult :=
  let r := batchLoop handler objs 0 true
  ⟨r.1, .succeeded, r.2⟩

/-- Planning-scene membership snapshot: names of free-standing (known)
objects and of objects attached to the end effector. -/
structure SceneSnapshot where
  known : List String
  attached : List String

/-- The membership test of `wait_for_state_update` (collision_environment.py
lines 130-140): the box's attachment status must equal `box_is_attached`
and its known-set membership must equal `box_is_known`. -/
def stateMatches (s : SceneSnapshot) (name : String)
    (box_is_known box_is_attached : Bool) : Bool :=
  (box_is_attached == s.attached.contains name)
    && (box_is_known == s.known.contains name)

/-- `CreateCollisionEnvironmentServer.wait_for_state_update`
(collision_environment.py lines 122-147), with the evolving planning scene
given as a function of time and `rospy.is_shutdown()` taken as always
false.  While `now - start < timeout`, poll the scene; on a match return
`True`; otherwise sleep one interval and retry.  Leaving the loop returns
`False`.  The fuel argument bounds the number of loop iterations the model
unfolds; the function returns the boolean together with the time at which
it returned. -/
def wait_for_state_update (scene : ℚ → SceneSnapshot) (name : String)
    (box_is_known box_is_attached : Bool) (timeout interval start : ℚ) :
    ℕ → ℚ → Option (Bool × ℚ)
  | 0, t => if t - start < timeout then none else some (false, t)
  | fuel + 1, t =>
    if t - start < timeout then
      if stateMatches (scene t) name box_is_known box_is_attached then
        some (true, t)
      else
        wait_for_state_update scene name box_is_known box_is_attached
          timeout interval start fuel (t + interval)
    else some (false, t)

/-- open3d OrientedBoundingBox restricted to the fields the code uses:
center and extent.  (The color field is display-only.) -/
structure OrientedBB where
  center : Vec3
  extent : Vec3
  deriving Repr, DecidableEq

/-- `ExecuteGraspServer.get_table_collision_object`
(execute_grasp_action_server.py lines 300-316), applied to the bounding
boxes the table-plane extractor returned: a surface whose center height is
below 0.2 is skipped; a retained surface gets a derived box whose center z
is `(center_z + extent_z/2)/2`, whose horizontal extents grow by 0.04 each,
and whose vertical extent is `center_z + extent_z/2`. -/
def get_table_collision_object (boxes : List OrientedBB) : List OrientedBB :=
  boxes.filterMap fun bb =>
    if bb.center.z < 1/5 then none
    else some
      { center := ⟨bb.center.x, bb.center.y, (bb.center.z + bb.extent.z / 2) / 2⟩,
        extent := ⟨bb.extent.x + 1/25, bb.extent.y + 1/25,
                   bb.center.z + bb.extent.z / 2⟩ }

/-- ROS 3-D bounding box as the table-plane extractor returns it: a center
pose and a size vector. -/
structure RosBB where
  center : Pose
  size : Vec3
  deriving Repr, DecidableEq

/-- The per-box in-place mutation of `CreateCollisionObjects.get_table_plane_bbs`
(collision_environment.py lines 223-230): center z becomes
`(center_z + size_z/2)/2`, both horizontal sizes grow by 0.04, and size z
becomes `old_center_z + size_z/2`.  There is no height test in this path. -/
def mutateTableBB (bb : RosBB) : RosBB :=
  let oldCenterZ := bb.center.position.z
  { center := { bb.center with position :=
      ⟨bb.center.position.x, bb.center.position.y,
       (oldCenterZ + bb.size.z / 2) / 2⟩ },
    size := ⟨bb.size.x + 1/25, bb.size.y + 1/25, oldCenterZ + bb.size.z / 2⟩ }

/-- `CreateCollisionObjects.get_table_plane_bbs` (collision_environment.py
lines 216-232), applied to the extractor's boxes: every box is mutated by
`mutateTableBB`; none is filtered out. -/
def get_table_plane_bbs (boxes : List RosBB) : List RosBB :=
  boxes.map mutateTableBB

/-- `CreateCollisionObjects.create_collision_object_helper`
(collision_environment.py lines 243-250): a CollisionObject whose pose has
the given translation and an orientation with only the w component set. -/
def helperObject (name frame : String) (method : CollisionMethod)
    (tx ty tz oriW sx sy sz : ℚ) : CollisionObject :=
  { name := name, frame := frame, method := method,
    pose := { position := ⟨tx, ty, tz⟩, orientation := ⟨0, 0, 0, oriW⟩ },
    size := ⟨sx, sy, sz⟩ }

/-- One table-plane collision object of `CreateCollisionObjects.execute`
(collision_environment.py lines 167-174): named `Table_plane_<i>`, ADD
method, the (already mutated) box's center pose, and its size with 0.1
subtracted from the vertical component. -/
def orchTableObject (frame : String) (i : ℕ) (bb : RosBB) : CollisionObject :=
  { name := "Table_plane_" ++ toString i, frame := frame, method := .add,
    pose := bb.center, size := ⟨bb.size.x, bb.size.y, bb.size.z - 1/10⟩ }

/-- The collision-object list built by `CreateCollisionObjects.execute`
(collision_environment.py lines 161-202): one object per table box,
then the fixed floor slab and four walls anchored to the robot's base pose
`(basePos, oriW)` — floor at z = -0.06 sized 15 x 15 x 0.1, front wall at
x + 2.0, back wall at x - 1.5, left wall at y + 2.0, right wall at y - 2.0. -/
def createCollisionObjectsList (basePos : Vec3) (oriW : ℚ) (frame : String)
    (tableBBs : List RosBB) : List CollisionObject :=
  (tableBBs.enum.map fun p => orchTableObject frame p.1 p.2)
    ++ [helperObject "floor" "map" .add basePos.x basePos.y (-(3/50)) oriW 15 15 (1/10),
        helperObject "front_wall" "map" .add (basePos.x + 2) basePos.y (1/20) oriW (1/100) 4 (1/10),
        helperObject "back_wall" "map" .add (basePos.x - 3/2) basePos.y (1/20) oriW (1/100) 4 (1/10),
        helperObject "left_wall" "map" .add basePos.x (basePos.y + 2) (1/20) oriW 4 (1/100) (1/10),
        helperObject "right_wall" "map" .add basePos.x (basePos.y - 2) (1/20) oriW 4 (1/100) (1/10)]

/-- One table collision object of `ExecuteGraspServer.add_table_collision_object`
(execute_grasp_action_server.py lines 177-195): named
`collision_object<counter>` with counter starting at 1, ADD method, frame
"map", identity orientation, the box center with 0.1 subtracted from z,
and the box extent as size. -/
def graspServerTableObject (i : ℕ) (obj : OrientedBB) : CollisionObject :=
  { name := "collision_object" ++ toString (i + 1), frame := "map", method := .add,
    pose := { position := ⟨obj.center.x, obj.center.y, obj.center.z - 1/10⟩,
              orientation := ⟨0, 0, 0, 1⟩ },
    size := obj.extent }

/-- The collision-object list built by
`ExecuteGraspServer.add_table_collision_object`
(execute_grasp_action_server.py lines 168-274): one object per sensed box,
then the fixed floor slab and four walls anchored to the robot's base pose —
floor at z = -0.07 sized 15 x 15 x 0.1, front wall at x + 1.5, behind wall
at x - 1.5, left wall at y + 2.0, right wall at y - 1.0. -/
def addTableCollisionObjectList (basePos : Vec3) (oriW : ℚ)
    (objs : List OrientedBB) : List CollisionObject :=
  (objs.enum.map fun p => graspServerTableObject p.1 p.2)
    ++ [helperObject "floor" "map" .add basePos.x basePos.y (-(7/100)) oriW 15 15 (1/10),
        helperObject "front_wall" "map" .add (basePos.x + 3/2) basePos.y (1/20) oriW (1/100) 4 (1/10),
        helperObject "behind_wall" "map" .add (basePos.x - 3/2) basePos.y (1/20) oriW (1/100) 4 (1/10),
        helperObject "left_wall" "map" .add basePos.x (basePos.y + 2) (1/20) oriW 4 (1/100) (1/10),
        helperObject "right_wall" "map" .add basePos.x (basePos.y - 1) (1/20) oriW 4 (1/100) (1/10)]

/-- Sample valid grasp candidate used in concrete witnesses. -/
def samplePose : PoseStamped := ⟨"map", ⟨⟨0, 0, 0⟩, ⟨0, 0, 0, 1⟩⟩⟩

/-- Sample candidate with an empty frame tag. -/
def emptyFramePose : PoseStamped := ⟨"", ⟨⟨0, 0, 0⟩, ⟨0, 0, 0, 1⟩⟩⟩

/-- Sample sensed surface whose center height 0.1 lies below the 0.2
filter threshold. -/
def lowSurfaceBB : RosBB :=
  ⟨⟨⟨0, 0, 1/10⟩, ⟨0, 0, 0, 1⟩⟩, ⟨1, 1, 1/10⟩⟩

lemma graspLoop_found (tfm : PoseStamped → PoseStamped) (plan : PoseStamped → ℕ)
    (sd : ℚ) (front : List PoseStamped) (p : PoseStamped) (back : List PoseStamped)
    (hfront : ∀ q ∈ front, q.frame_id ≠ "" ∧ ¬ feasible tfm plan sd q)
    (hp : p.frame_id ≠ "") (hfeas : feasible tfm plan sd p) :
    ∀ i, graspLoop tfm plan sd i (front ++ p :: back) =
      ⟨.found (i + front.length),
       front.map (offsetPose sd) ++ offsetPose sd p :: back,
       List.range' i (front.length + 1)⟩ := by
  induction front with
  | nil =>
    intro i
    simp only [List.nil_append, graspLoop, List.map_nil, List.length_nil, Nat.add_zero]
    rw [if_neg hp, if_pos (show 0 < plan (tfm (offsetPose sd p)) from hfeas)]
    rfl
  | cons q front ih =>
    intro i
    have hq := hfront q (by simp)
    simp only [List.cons_append, graspLoop]
    rw [if_neg hq.1,
        if_neg (show ¬ 0 < plan (tfm (offsetPose sd q)) from hq.2)]
    simp only [List.append_eq]
    rw [ih (fun r hr => hfront r (by simp [hr])) (i + 1)]
    simp only [LoopResult.mk.injEq, List.length_cons, List.map_cons, List.cons_append,
      List.range', and_true, true_and]
    congr 1
    omega

lemma graspLoop_no_feasible (tfm : PoseStamped → PoseStamped) (plan : PoseStamped → ℕ)
    (sd : ℚ) : ∀ (poses : List PoseStamped) (i : ℕ),
    (∀ p ∈ poses, ¬ feasible tfm plan sd p) →
    ∀ j, (graspLoop tfm plan sd i poses).outcome ≠ .found j := by
  intro poses
  induction poses with
  | nil => intro i _ j; simp [graspLoop]
  | cons p rest ih =>
    intro i h j
    by_cases hf : p.frame_id = ""
    · simp [graspLoop, hf]
    · have hnp : ¬ 0 < plan (tfm (offsetPose sd p)) := h p (by simp)
      simp only [graspLoop, if_neg hf, if_neg hnp]
      exact ih (i + 1) (fun q hq => h q (by simp [hq])) j

lemma graspLoop_invalid_prefix (tfm : PoseStamped → PoseStamped) (plan : PoseStamped → ℕ)
    (sd : ℚ) (front : List PoseStamped) (pbad : PoseStamped) (back : List PoseStamped)
    (hfront : ∀ q ∈ front, q.frame_id ≠ "" ∧ ¬ feasible tfm plan sd q)
    (hbad : pbad.frame_id = "") :
    ∀ i, graspLoop tfm plan sd i (front ++ pbad :: back) =
      ⟨.invalid, front.map (offsetPose sd) ++ pbad :: back, List.range' i front.length⟩ := by
  induction front with
  | nil =>
    intro i
    simp only [List.nil_append, graspLoop, List.map_nil, List.length_nil]
    rw [if_pos hbad]
    rfl
  | cons q front ih =>
    intro i
    have hq := hfront q (by simp)
    simp only [List.cons_append, graspLoop]
    rw [if_neg hq.1,
        if_neg (show ¬ 0 < plan (tfm (offsetPose sd q)) from hq.2)]
    simp only [List.append_eq]
    rw [ih (fun r hr => hfront r (by simp [hr])) (i + 1)]
    simp only [LoopResult.mk.injEq, List.length_cons, List.map_cons, List.cons_append,
      List.range', and_true, true_and]

lemma graspLoop_poses_shape (tfm : PoseStamped → PoseStamped) (plan : PoseStamped → ℕ)
    (sd : ℚ) : ∀ (poses : List PoseStamped) (i : ℕ),
    ∃ k ≤ poses.length,
      (graspLoop tfm plan sd i poses).poses =
        (poses.take k).map (offsetPose sd) ++ poses.drop k := by
  intro poses
  induction poses with
  | nil => intro i; exact ⟨0, by simp [graspLoop]⟩
  | cons p rest ih =>
    intro i
    by_cases hf : p.frame_id = ""
    · exact ⟨0, by simp, by simp [graspLoop, hf]⟩
    · by_cases hplan : 0 < plan (tfm (offsetPose sd p))
      · refine ⟨1, by simp, ?_⟩
        simp [graspLoop, if_neg hf, if_pos hplan]
      · obtain ⟨k, hk, hsh⟩ := ih (i + 1)
        refine ⟨k + 1, by simpa using hk, ?_⟩
        simp [graspLoop, if_neg hf, if_neg hplan, hsh]

lemma executeGrasp_finalPoses (tfm : PoseStamped → PoseStamped) (plan : PoseStamped → ℕ)
    (sd ap : ℚ) (poses : List PoseStamped) :
    (executeGrasp tfm plan sd ap poses).finalPoses =
      (graspLoop tfm plan sd 0 poses).poses := by
  cases houtcome : (graspLoop tfm plan sd 0 poses).outcome <;>
    simp [executeGrasp, houtcome, apply_ite GraspResult.finalPoses]

lemma executeGrasp_planned (tfm : PoseStamped → PoseStamped) (plan : PoseStamped → ℕ)
    (sd ap : ℚ) (poses : List PoseStamped) :
    (executeGrasp tfm plan sd ap poses).planned =
      (graspLoop tfm plan sd 0 poses).planned := by
  cases houtcome : (graspLoop tfm plan sd 0 poses).outcome <;>
    simp [executeGrasp, houtcome, apply_ite GraspResult.planned]

lemma batchLoop_isDone (handler : ℕ → Bool) :
    ∀ (objs : List CollisionObject) (i : ℕ) (d : Bool),
    (batchLoop handler objs i d).1 = (d && (List.range' i objs.length).all handler) := by
  intro objs
  induction objs with
  | nil => intro i d; simp [batchLoop]
  | cons obj rest ih =>
    intro i d
    have hstep : (match obj.method with
        | .add => if handler i = false then false else d
        | .remove => if handler i = false then false else d
        | .attach => if handler i = false then false else d
        | .detach => if handler i = false then false else d) = (d && handler i) := by
      cases obj.method <;> cases h : handler i <;> simp [h]
    simp only [batchLoop, hstep, ih (i + 1) (d && handler i), List.length_cons,
      List.range', List.all_cons]
    cases d <;> cases h : handler i <;> simp [h]

lemma batchLoop_dispatched (handler : ℕ → Bool) :
    ∀ (objs : List CollisionObject) (i : ℕ) (d : Bool),
    (batchLoop handler objs i d).2 = i + objs.length := by
  intro objs
  induction objs with
  | nil => intro i d; simp [batchLoop]
  | cons obj rest ih =>
    intro i d
    simp only [batchLoop, ih, List.length_cons]
    omega

lemma wait_bounds (scene : ℚ → SceneSnapshot) (name : String)
    (bik bia : Bool) (timeout interval start : ℚ)
    (hnever : ∀ t, stateMatches (scene t) name bik bia = false) :
    ∀ (fuel : ℕ) (t : ℚ), t - start < timeout + interval →
    ∀ (b : Bool) (e : ℚ),
      wait_for_state_update scene name bik bia timeout interval start fuel t = some (b, e) →
      b = false ∧ timeout ≤ e - start ∧ e - start < timeout + interval := by
  intro fuel
  induction fuel with
  | zero =>
    intro t ht b e h
    simp only [wait_for_state_update] at h
    by_cases hc : t - start < timeout
    · simp [hc] at h
    · rw [if_neg hc] at h
      obtain ⟨hb, he⟩ := Option.some.injEq _ _ ▸ h
      cases h
      exact ⟨rfl, le_of_not_lt hc, ht⟩
  | succ fuel ih =>
    intro t ht b e h
    simp only [wait_for_state_update] at h
    by_cases hc : t - start < timeout
    · rw [if_pos hc, hnever t] at h
      simp only [Bool.false_eq_true, if_false] at h
      exact ih (t + interval) (by linarith) b e h
    · rw [if_neg hc] at h
      cases h
      exact ⟨rfl, le_of_not_lt hc, ht⟩

lemma wait_isSome (scene : ℚ → SceneSnapshot) (name : String)
    (bik bia : Bool) (timeout interval start : ℚ) :
    ∀ (fuel : ℕ) (t : ℚ), timeout - (t - start) ≤ (fuel : ℚ) * interval →
    (wait_for_state_update scene name bik bia timeout interval start fuel t).isSome := by
  intro fuel
  induction fuel with
  | zero =>
    intro t hfuel
    have hc : ¬ t - start < timeout := by push_cast at hfuel; intro hlt; linarith
    simp [wait_for_state_update, hc]
  | succ fuel ih =>
    intro t hfuel
    simp only [wait_for_state_update]
    by_cases hc : t - start < timeout
    · rw [if_pos hc]
      by_cases hm : stateMatches (scene t) name bik bia
      · simp [hm]
      · simp only [hm, Bool.false_eq_true, if_false]
        apply ih
        push_cast at hfuel ⊢
        linarith
    · simp [hc]

/-- C1, counterexample: the claim says the verifier reports grasp success
iff the measured aperture is less than -0.004.  At aperture -0.01 (which is
less than -0.004) the code reports failure: `execute` succeeds only when
`gripper.get_distance() > -0.004`. -/
theorem C1_counterexample :
    (executeGrasp id (fun _ => 5) (2/25) (-(1/100)) [samplePose]).success = false ∧
    ((-(1/100) : ℚ) < -(1/250)) := by
  constructor
  · simp [executeGrasp, graspLoop, offsetPose, qv_mult, quatNormSq, samplePose]
    norm_num
  · norm_num

/-- C1, amended: whenever a grasp was selected and executed, the verifier
(after re-applying the stronger closing force) reports success iff the
measured aperture is GREATER than -0.004; otherwise the gripper is
reopened (commanded fully open) and the stage aborts. -/
theorem C1_amended_verification (tfm : PoseStamped → PoseStamped)
    (plan : PoseStamped → ℕ) (sd ap : ℚ) (poses : List PoseStamped) (i : ℕ)
    (h : (executeGrasp tfm plan sd ap poses).selected = some i) :
    ((executeGrasp tfm plan sd ap poses).success = true ↔ -(1/250) < ap) ∧
    (ap ≤ -(1/250) →
      (executeGrasp tfm plan sd ap poses).aborted = true ∧
      MotionCmd.gripperCommand 1 ∈ (executeGrasp tfm plan sd ap poses).motions) := by
  cases houtcome : (graspLoop tfm plan sd 0 poses).outcome with
  | invalid => simp [executeGrasp, houtcome] at h
  | exhausted => simp [executeGrasp, houtcome] at h
  | found j =>
    constructor
    · simp only [executeGrasp, houtcome]
      split
      case isTrue hap => simpa using hap
      case isFalse hap => simpa using hap
    · intro hle
      have hap : ¬ (-(1/250 : ℚ) < ap) := not_lt.mpr hle
      simp only [executeGrasp, houtcome]
      rw [if_neg hap]
      exact ⟨rfl, by simp⟩

/-- C1, witness for the amended theorem at a concrete input: one feasible
candidate, aperture -0.01. -/
theorem C1_amended_verification_witness :
    ((executeGrasp id (fun _ => 1) (2/25) (-(1/100)) [samplePose]).success = true ↔
      -(1/250) < (-(1/100) : ℚ)) ∧
    ((-(1/100) : ℚ) ≤ -(1/250) →
      (executeGrasp id (fun _ => 1) (2/25) (-(1/100)) [samplePose]).aborted = true ∧
      MotionCmd.gripperCommand 1 ∈
        (executeGrasp id (fun _ => 1) (2/25) (-(1/100)) [samplePose]).motions) :=
  C1_amended_verification id (fun _ => 1) (2/25) (-(1/100)) [samplePose] 0
    (by simp [executeGrasp, graspLoop, offsetPose, qv_mult, quatNormSq, samplePose,
          apply_ite GraspResult.selected])

/-- C3 (confirmed): for an ordered candidate list whose candidates up to
the first feasible one are well-formed (non-empty frame tag, as the stage
contract requires) and infeasible, the loop selects exactly the first
feasible candidate, and plans are requested exactly for the candidates up
to and including it — never for a later one. -/
theorem C3_firstFeasibleSelected (tfm : PoseStamped → PoseStamped)
    (plan : PoseStamped → ℕ) (sd ap : ℚ)
    (front : List PoseStamped) (p : PoseStamped) (back : List PoseStamped)
    (hfront : ∀ q ∈ front, q.frame_id ≠ "" ∧ ¬ feasible tfm plan sd q)
    (hp : p.frame_id ≠ "") (hfeas : feasible tfm plan sd p) :
    (executeGrasp tfm plan sd ap (front ++ p :: back)).selected = some front.length ∧
    (executeGrasp tfm plan sd ap (front ++ p :: back)).planned =
      List.range (front.length + 1) := by
  have hloop := graspLoop_found tfm plan sd front p back hfront hp hfeas 0
  have ho : (graspLoop tfm plan sd 0 (front ++ p :: back)).outcome =
      .found front.length := by rw [hloop]; simp
  constructor
  · simp [executeGrasp, ho, apply_ite GraspResult.selected]
  · rw [executeGrasp_planned, hloop, List.range_eq_range']

/-- C3, witness: a single feasible candidate is selected at index 0 with
exactly one plan request. -/
theorem C3_firstFeasibleSelected_witness :
    (executeGrasp id (fun _ => 1) (2/25) 0 [samplePose]).selected = some 0 ∧
    (executeGrasp id (fun _ => 1) (2/25) 0 [samplePose]).planned = List.range 1 :=
  C3_firstFeasibleSelected id (fun _ => 1) (2/25) 0 [] samplePose []
    (by simp) (by simp [samplePose]) (by simp [feasible])

/-- C4 (confirmed): when no candidate yields a feasible plan, the grasp
stage reports success = false, aborts, and issues zero motion commands. -/
theorem C4_noFeasibleAborts (tfm : PoseStamped → PoseStamped)
    (plan : PoseStamped → ℕ) (sd ap : ℚ) (poses : List PoseStamped)
    (h : ∀ p ∈ poses, ¬ feasible tfm plan sd p) :
    (executeGrasp tfm plan sd ap poses).success = false ∧
    (executeGrasp tfm plan sd ap poses).aborted = true ∧
    (executeGrasp tfm plan sd ap poses).motions = [] := by
  cases houtcome : (graspLoop tfm plan sd 0 poses).outcome with
  | invalid => simp [executeGrasp, houtcome]
  | exhausted => simp [executeGrasp, houtcome]
  | found j => exact absurd houtcome (graspLoop_no_feasible tfm plan sd poses 0 h j)

/-- C4, witness: one valid candidate whose plan is empty. -/
theorem C4_noFeasibleAborts_witness :
    (executeGrasp id (fun _ => 0) (2/25) 0 [samplePose]).success = false ∧
    (executeGrasp id (fun _ => 0) (2/25) 0 [samplePose]).aborted = true ∧
    (executeGrasp id (fun _ => 0) (2/25) 0 [samplePose]).motions = [] :=
  C4_noFeasibleAborts id (fun _ => 0) (2/25) 0 [samplePose]
    (by intro p _; simp [feasible])

/-- C8, counterexample: the claim says any empty-frame candidate anywhere
in the list makes the whole attempt fail immediately.  With a feasible
valid candidate first and an empty-frame candidate second, the stage does
not abort: it executes the grasp and reports success. -/
theorem C8_counterexample :
    emptyFramePose.frame_id = "" ∧
    (executeGrasp id (fun _ => 1) (2/25) 0 [samplePose, emptyFramePose]).aborted = false ∧
    (executeGrasp id (fun _ => 1) (2/25) 0 [samplePose, emptyFramePose]).success = true := by
  refine ⟨rfl, ?_, ?_⟩ <;>
    simp [executeGrasp, graspLoop, offsetPose, qv_mult, quatNormSq, samplePose,
      emptyFramePose]

/-- C8, amended: an empty-frame candidate aborts the whole attempt (no
motion commands, nothing selected) only when it is reached, i.e. when every
candidate before it is valid but infeasible; candidates from the invalid
one onwards are never planned for.  (A feasible candidate before it ends
the loop first, as the counterexample shows.) -/
theorem C8_amended_invalidFrame (tfm : PoseStamped → PoseStamped)
    (plan : PoseStamped → ℕ) (sd ap : ℚ)
    (front : List PoseStamped) (pbad : PoseStamped) (back : List PoseStamped)
    (hfront : ∀ q ∈ front, q.frame_id ≠ "" ∧ ¬ feasible tfm plan sd q)
    (hbad : pbad.frame_id = "") :
    (executeGrasp tfm plan sd ap (front ++ pbad :: back)).aborted = true ∧
    (executeGrasp tfm plan sd ap (front ++ pbad :: back)).success = false ∧
    (executeGrasp tfm plan sd ap (front ++ pbad :: back)).motions = [] ∧
    (executeGrasp tfm plan sd ap (front ++ pbad :: back)).selected = none ∧
    (executeGrasp tfm plan sd ap (front ++ pbad :: back)).planned =
      List.range front.length := by
  have hloop := graspLoop_invalid_prefix tfm plan sd front pbad back hfront hbad 0
  have ho : (graspLoop tfm plan sd 0 (front ++ pbad :: back)).outcome = .invalid := by
    rw [hloop]
  refine ⟨?_, ?_, ?_, ?_, ?_⟩
  · simp [executeGrasp, ho]
  · simp [executeGrasp, ho]
  · simp [executeGrasp, ho]
  · simp [executeGrasp, ho]
  · rw [executeGrasp_planned, hloop, List.range_eq_range']

/-- C8, witness for the amended theorem: the empty-frame candidate is
first in the list, so the attempt aborts with nothing planned. -/
theorem C8_amended_invalidFrame_witness :
    (executeGrasp id (fun _ => 1) (2/25) 0 [emptyFramePose]).aborted = true ∧
    (executeGrasp id (fun _ => 1) (2/25) 0 [emptyFramePose]).success = false ∧
    (executeGrasp id (fun _ => 1) (2/25) 0 [emptyFramePose]).motions = [] ∧
    (executeGrasp id (fun _ => 1) (2/25) 0 [emptyFramePose]).selected = none ∧
    (executeGrasp id (fun _ => 1) (2/25) 0 [emptyFramePose]).planned = List.range 0 :=
  C8_amended_invalidFrame id (fun _ => 1) (2/25) 0 [] emptyFramePose []
    (by simp) rfl

/-- C9, counterexample: the claim says received candidates are immutable.
A single valid infeasible candidate at the origin with identity
orientation has its position changed in place by the safety offset
(z becomes -0.08) before the stage completes. -/
theorem C9_counterexample :
    (executeGrasp id (fun _ => 0) (2/25) 0 [samplePose]).finalPoses ≠ [samplePose] := by
  simp [executeGrasp, graspLoop, offsetPose, qv_mult, quatNormSq, samplePose]

/-- C9, amended: candidates are mutated in place — the final candidate
list is the processed prefix with the safety offset added to each position
followed by the untouched suffix; the offset never changes a candidate's
frame tag or orientation. -/
theorem C9_amended_mutatedPrefix (tfm : PoseStamped → PoseStamped)
    (plan : PoseStamped → ℕ) (sd ap : ℚ) (poses : List PoseStamped) :
    (∃ k ≤ poses.length,
      (executeGrasp tfm plan sd ap poses).finalPoses =
        (poses.take k).map (offsetPose sd) ++ poses.drop k) ∧
    (∀ p : PoseStamped, (offsetPose sd p).frame_id = p.frame_id ∧
      (offsetPose sd p).pose.orientation = p.pose.orientation) := by
  constructor
  · rw [executeGrasp_finalPoses]
    exact graspLoop_poses_shape tfm plan sd poses 0
  · intro p
    exact ⟨rfl, rfl⟩

/-- C5 (confirmed): every primitive of the batch is dispatched to its
mutation handler even when an earlier one failed, and the aggregate isDone
is true iff every individual mutation's post-condition check succeeded. -/
theorem C5_batchAggregate (handler : ℕ → Bool) (objs : List CollisionObject) :
    (executeBatch handler objs).dispatched = objs.length ∧
    ((executeBatch handler objs).isDone = true ↔
      ∀ j, j < objs.length → handler j = true) := by
  constructor
  · simp [executeBatch, batchLoop_dispatched]
  · rw [executeBatch]
    simp only [batchLoop_isDone, Bool.true_and, List.all_eq_true]
    constructor
    · intro h j hj
      exact h j (by simpa using hj)
    · intro h j hj
      exact h j (by simpa using hj)

/-- C10 (confirmed): the batch action handler always terminates the goal
with set_succeeded — even when individual mutations failed — and never
sets the aborted status; failure is conveyed only through isDone. -/
theorem C10_batchAlwaysSucceeded (handler : ℕ → Bool) (objs : List CollisionObject) :
    (executeBatch handler objs).status = ActionStatus.succeeded ∧
    (executeBatch handler objs).status ≠ ActionStatus.aborted := by
  constructor <;> simp [executeBatch]

/-- C7 (confirmed): with the default timeout 4 and poll interval 0.1, a
mutation whose post-condition never becomes true makes the per-item wait
return failure, at an elapsed time of at least the timeout and at most the
timeout plus one poll interval. -/
theorem C7_timeoutBounds (scene : ℚ → SceneSnapshot) (name : String)
    (bik bia : Bool) (start : ℚ) (fuel : ℕ)
    (hnever : ∀ t, stateMatches (scene t) name bik bia = false)
    (hfuel : 40 ≤ fuel) :
    ∃ e, wait_for_state_update scene name bik bia 4 (1/10) start fuel start =
        some (false, e) ∧ 4 ≤ e - start ∧ e - start ≤ 4 + 1/10 := by
  have hcast : (40 : ℚ) ≤ (fuel : ℚ) := by exact_mod_cast hfuel
  have hsome := wait_isSome scene name bik bia 4 (1/10) start fuel start
    (by rw [sub_self]; linarith)
  obtain ⟨⟨b, e⟩, hbe⟩ := Option.isSome_iff_exists.mp hsome
  have hb := wait_bounds scene name bik bia 4 (1/10) start hnever fuel start
    (by rw [sub_self]; norm_num) b e hbe
  rw [hb.1] at hbe
  exact ⟨e, hbe, hb.2.1, le_of_lt hb.2.2⟩

/-- C7, witness: an always-empty scene never matches a box whose presence
is awaited, so the wait with fuel 41 fails within the stated bounds. -/
theorem C7_timeoutBounds_witness :
    ∃ e, wait_for_state_update (fun _ => ⟨[], []⟩) "box" true false 4 (1/10) 0 41 0 =
        some (false, e) ∧ 4 ≤ e - 0 ∧ e - 0 ≤ 4 + 1/10 :=
  C7_timeoutBounds (fun _ => ⟨[], []⟩) "box" true false 0 41
    (fun _ => rfl) (by norm_num)

lemma gtco_length (boxes : List OrientedBB) :
    (get_table_collision_object boxes).length =
      (boxes.filter fun bb => decide ((1:ℚ)/5 ≤ bb.center.z)).length := by
  induction boxes with
  | nil => rfl
  | cons bb rest ih =>
    by_cases h : bb.center.z < 1/5
    · have hd : decide ((1:ℚ)/5 ≤ bb.center.z) = false := by
        simpa using not_le.mpr h
      simp only [get_table_collision_object, List.filterMap_cons, if_pos h,
        List.filter_cons, hd, Bool.false_eq_true, if_false]
      exact ih
    · have hd : decide ((1:ℚ)/5 ≤ bb.center.z) = true := by
        simpa using not_lt.mp h
      simp only [get_table_collision_object, List.filterMap_cons, if_neg h,
        List.filter_cons, hd, if_true, List.length_cons]
      exact congrArg Nat.succ ih

lemma gtco_elem (boxes : List OrientedBB) :
    ∀ out ∈ get_table_collision_object boxes, ∃ bb ∈ boxes,
      (1:ℚ)/5 ≤ bb.center.z ∧ out.extent.x = bb.extent.x + 1/25 ∧
      out.extent.y = bb.extent.y + 1/25 := by
  intro out hout
  rw [get_table_collision_object, List.mem_filterMap] at hout
  obtain ⟨bb, hbb, hsome⟩ := hout
  by_cases h : bb.center.z < 1/5
  · rw [if_pos h] at hsome
    cases hsome
  · rw [if_neg h] at hsome
    obtain rfl := Option.some.inj hsome
    exact ⟨bb, hbb, not_lt.mp h, rfl, rfl⟩

/-- C2, amended: in the grasp server's synthesis path every surface with
center height below 0.2 is excluded and every retained surface's derived
box has +0.04 added to both horizontal extents; the orchestrator's
CreateCollisionObjects path applies the same +0.04 inflation to every
surface but performs no height filtering at all. -/
theorem C2_amended_filterOneSided :
    (∀ boxes : List OrientedBB,
      (get_table_collision_object boxes).length =
        (boxes.filter fun bb => decide ((1:ℚ)/5 ≤ bb.center.z)).length ∧
      ∀ out ∈ get_table_collision_object boxes, ∃ bb ∈ boxes,
        (1:ℚ)/5 ≤ bb.center.z ∧ out.extent.x = bb.extent.x + 1/25 ∧
        out.extent.y = bb.extent.y + 1/25) ∧
    (∀ boxes : List RosBB,
      (get_table_plane_bbs boxes).length = boxes.length ∧
      ∀ bb ∈ boxes, mutateTableBB bb ∈ get_table_plane_bbs boxes ∧
        (mutateTableBB bb).size.x = bb.size.x + 1/25 ∧
        (mutateTableBB bb).size.y = bb.size.y + 1/25) := by
  refine ⟨fun boxes => ⟨gtco_length boxes, gtco_elem boxes⟩, fun boxes => ⟨?_, ?_⟩⟩
  · simp [get_table_plane_bbs]
  · intro bb hbb
    exact ⟨List.mem_map_of_mem mutateTableBB hbb, rfl, rfl⟩

/-- C2, counterexample: a surface with center height 0.1 (below 0.2) is
not excluded by the orchestrator's CreateCollisionObjects path — it is
mutated, kept, and emitted as the primitive Table_plane_0. -/
theorem C2_counterexample :
    lowSurfaceBB.center.position.z < 1/5 ∧
    (get_table_plane_bbs [lowSurfaceBB]).length = 1 ∧
    ((createCollisionObjectsList ⟨0, 0, 0⟩ 1 "map" (get_table_plane_bbs [lowSurfaceBB])).map
        (fun o => o.name)) =
      ["Table_plane_0", "floor", "front_wall", "back_wall", "left_wall", "right_wall"] := by
  refine ⟨by norm_num [lowSurfaceBB], by simp [get_table_plane_bbs], ?_⟩
  simp [createCollisionObjectsList, get_table_plane_bbs, mutateTableBB, lowSurfaceBB,
    orchTableObject, helperObject, List.enum]
  rfl

lemma drop_enumMap_append {α γ : Type} (l : List α) (f : ℕ × α → γ) (l₂ : List γ) :
    ((l.enum.map f) ++ l₂).drop l.length = l₂ := by
  rw [show l.length = (l.enum.map f).length by simp, List.drop_left]

/-- C6, counterexample: the claim puts walls at offsets plus and minus 2.0
front/back and plus and minus 2.0 left/right from the base in both
synthesis paths.  With the base at the origin, the orchestrator's list has
no primitive at x = -2 (its back wall sits at x = -1.5), and the grasp
server's list has no primitive at y = -2 (its right wall sits at y = -1). -/
theorem C6_counterexample :
    (∀ obj ∈ createCollisionObjectsList ⟨0, 0, 0⟩ 1 "map" [], obj.pose.position.x ≠ -2) ∧
    (∀ obj ∈ addTableCollisionObjectList ⟨0, 0, 0⟩ 1 [], obj.pose.position.y ≠ -2) := by
  constructor <;>
  · intro obj hobj
    simp [createCollisionObjectsList, addTableCollisionObjectList, helperObject,
      List.enum] at hobj
    rcases hobj with rfl | rfl | rfl | rfl | rfl <;> norm_num

/-- C6, amended: both synthesis paths always append exactly five fixed ADD
primitives anchored to the robot's base pose `(basePos, oriW)` after the
per-surface objects — a 15 x 15 x 0.1 floor slab (at z = -0.06 in the
orchestrator path, z = -0.07 in the grasp-server path) and four thin
walls: at x+2.0, x-1.5, y+2.0, y-2.0 in the orchestrator path, and at
x+1.5, x-1.5, y+2.0, y-1.0 in the grasp-server path. -/
theorem C6_amended_fixedPrimitives (basePos : Vec3) (oriW : ℚ) (frame : String)
    (tbls : List RosBB) (objs : List OrientedBB) :
    (createCollisionObjectsList basePos oriW frame tbls).drop tbls.length =
      [helperObject "floor" "map" .add basePos.x basePos.y (-(3/50)) oriW 15 15 (1/10),
       helperObject "front_wall" "map" .add (basePos.x + 2) basePos.y (1/20) oriW (1/100) 4 (1/10),
       helperObject "back_wall" "map" .add (basePos.x - 3/2) basePos.y (1/20) oriW (1/100) 4 (1/10),
       helperObject "left_wall" "map" .add basePos.x (basePos.y + 2) (1/20) oriW 4 (1/100) (1/10),
       helperObject "right_wall" "map" .add basePos.x (basePos.y - 2) (1/20) oriW 4 (1/100) (1/10)] ∧
    (addTableCollisionObjectList basePos oriW objs).drop objs.length =
      [helperObject "floor" "map" .add basePos.x basePos.y (-(7/100)) oriW 15 15 (1/10),
       helperObject "front_wall" "map" .add (basePos.x + 3/2) basePos.y (1/20) oriW (1/100) 4 (1/10),
       helperObject "behind_wall" "map" .add (basePos.x - 3/2) basePos.y (1/20) oriW (1/100) 4 (1/10),
       helperObject "left_wall" "map" .add basePos.x (basePos.y + 2) (1/20) oriW 4 (1/100) (1/10),
       helperObject "right_wall" "map" .add basePos.x (basePos.y - 1) (1/20) oriW 4 (1/100) (1/10)] := by
  constructor
  · rw [createCollisionObjectsList, drop_enumMap_append]
  · rw [addTableCollisionObjectList, drop_enumMap_append]
